import Mathlib

/-!
Verification of the protocol engine of `minimalmodbus.py` (a Modbus RTU
master-side driver).  Byte strings (`bytearray` in the source) are modelled
as `List Nat` with each element intended to be a byte value below 256;
Python exceptions are modelled with `Option`/`Except`; Python floats are
modelled with exact rationals `ℚ`.
-/

namespace MinimalModbus

/-- The 256-entry CRC lookup table `_CRC16TABLE` from the source,
transcribed verbatim. -/
def crc16Table : List Nat := [
        0, 49345, 49537,   320, 49921,   960,   640, 49729, 50689,  1728,  1920,
    51009,  1280, 50625, 50305,  1088, 52225,  3264,  3456, 52545,  3840, 53185,
    52865,  3648,  2560, 51905, 52097,  2880, 51457,  2496,  2176, 51265, 55297,
     6336,  6528, 55617,  6912, 56257, 55937,  6720,  7680, 57025, 57217,  8000,
    56577,  7616,  7296, 56385,  5120, 54465, 54657,  5440, 55041,  6080,  5760,
    54849, 53761,  4800,  4992, 54081,  4352, 53697, 53377,  4160, 61441, 12480,
    12672, 61761, 13056, 62401, 62081, 12864, 13824, 63169, 63361, 14144, 62721,
    13760, 13440, 62529, 15360, 64705, 64897, 15680, 65281, 16320, 16000, 65089,
    64001, 15040, 15232, 64321, 14592, 63937, 63617, 14400, 10240, 59585, 59777,
    10560, 60161, 11200, 10880, 59969, 60929, 11968, 12160, 61249, 11520, 60865,
    60545, 11328, 58369,  9408,  9600, 58689,  9984, 59329, 59009,  9792,  8704,
    58049, 58241,  9024, 57601,  8640,  8320, 57409, 40961, 24768, 24960, 41281,
    25344, 41921, 41601, 25152, 26112, 42689, 42881, 26432, 42241, 26048, 25728,
    42049, 27648, 44225, 44417, 27968, 44801, 28608, 28288, 44609, 43521, 27328,
    27520, 43841, 26880, 43457, 43137, 26688, 30720, 47297, 47489, 31040, 47873,
    31680, 31360, 47681, 48641, 32448, 32640, 48961, 32000, 48577, 48257, 31808,
    46081, 29888, 30080, 46401, 30464, 47041, 46721, 30272, 29184, 45761, 45953,
    29504, 45313, 29120, 28800, 45121, 20480, 37057, 37249, 20800, 37633, 21440,
    21120, 37441, 38401, 22208, 22400, 38721, 21760, 38337, 38017, 21568, 39937,
    23744, 23936, 40257, 24320, 40897, 40577, 24128, 23040, 39617, 39809, 23360,
    39169, 22976, 22656, 38977, 34817, 18624, 18816, 35137, 19200, 35777, 35457,
    19008, 19968, 36545, 36737, 20288, 36097, 19904, 19584, 35905, 17408, 33985,
    34177, 17728, 34561, 18368, 18048, 34369, 33281, 17088, 17280, 33601, 16640,
    33217, 32897, 16448]

/-- One step of the CRC loop in `_calculateCrcString`:
`register = (register >> 8) ^ _CRC16TABLE[(register ^ char) & 0xFF]`. -/
def crcStep (register char : Nat) : Nat :=
  (register >>> 8) ^^^ crc16Table.getD ((register ^^^ char) &&& 0xFF) 0

/-- The final 16-bit CRC register for an input byte string: the loop of
`_calculateCrcString`, with the register preloaded to `0xFFFF`. -/
def crcRegister (input : List Nat) : Nat :=
  input.foldl crcStep 0xFFFF

/-- `struct.pack` of a 16-bit unsigned value into two bytes
(`'<H'` when `lsbFirst`, `'>H'` otherwise). -/
def packUInt16 (lsbFirst : Bool) (u : Nat) : List Nat :=
  if lsbFirst then [u % 256, u / 256 % 256] else [u / 256 % 256, u % 256]

/-- `_calculateCrcString`: the CRC register serialized low byte first
(the source packs it with `_numToTwoByteArray(register, LsbFirst=True)`;
the register always fits 16 bits so the pack cannot fail). -/
def calculateCrcString (input : List Nat) : List Nat :=
  packUInt16 true (crcRegister input)

/-- `_setBitOn(x, bitNum) = x | (1 << bitNum)`. -/
def setBitOn (x bitNum : Nat) : Nat :=
  x ||| (1 <<< bitNum)

/-- `_embedPayload(slaveaddress, mode, functioncode, payloaddata)`.
The guard collects `_checkSlaveaddress` (0..247), `_checkMode`
(only `'rtu'` accepted) and `_checkFunctioncode(functioncode, None)`
(1..127); under it the two `_numToOneByteArray` calls cannot fail, and the
frame is address byte, function-code byte, payload, then the CRC of those
bytes. -/
def embedPayload (slaveaddress : Nat) (mode : String) (functioncode : Nat)
    (payloaddata : List Nat) : Option (List Nat) :=
  if slaveaddress ≤ 247 ∧ mode = "rtu" ∧ 1 ≤ functioncode ∧ functioncode ≤ 127 then
    some ((slaveaddress :: functioncode :: payloaddata) ++
      calculateCrcString (slaveaddress :: functioncode :: payloaddata))
  else
    none

/-- The distinct failure modes of `_extractPayload` (every one is a
`ValueError` in the source, with a distinct message). -/
inductive ExtractError where
  /-- one of the argument checks at the top of the function failed -/
  | argError : ExtractError
  /-- response shorter than the 4-byte minimum (framing error) -/
  | tooShort : ExtractError
  /-- recomputed CRC does not match the trailing two bytes -/
  | checksumError : ExtractError
  /-- first byte differs from the expected slave address -/
  | wrongAddress : ExtractError
  /-- second byte is the function code with bit 7 set -/
  | slaveException : ExtractError
  /-- second byte is some other wrong function code -/
  | wrongFunctioncode : ExtractError
  deriving DecidableEq, Repr

/-- `_extractPayload(response, slaveaddress, mode, functioncode)`:
argument checks, then minimum-length check, checksum check, slave-address
check, function-code check (with the bit-7 slave-exception case), and on
success the slice `response[2 : len(response) - 2]`. -/
def extractPayload (response : List Nat) (slaveaddress : Nat) (mode : String)
    (functioncode : Nat) : Except ExtractError (List Nat) :=
  if ¬ (slaveaddress ≤ 247 ∧ mode = "rtu" ∧ 1 ≤ functioncode ∧ functioncode ≤ 127) then
    .error .argError
  else if response.length < 4 then
    .error .tooShort
  else if response.drop (response.length - 2) ≠
      calculateCrcString (response.take (response.length - 2)) then
    .error .checksumError
  else if response.getD 0 0 ≠ slaveaddress then
    .error .wrongAddress
  else if response.getD 1 0 = setBitOn functioncode 7 then
    .error .slaveException
  else if response.getD 1 0 ≠ functioncode then
    .error .wrongFunctioncode
  else
    .ok ((response.take (response.length - 2)).drop 2)

/-- Truncation toward zero of a rational, the behaviour of Python's
`int(...)` on a (finite) float value. -/
def ratTrunc (q : ℚ) : ℤ :=
  q.num.tdiv q.den

/-- `_numToTwoByteArray(value, numberOfDecimals, LsbFirst, signed)`:
computes `integer = int(float(value) * 10**numberOfDecimals)` and packs it
with `struct.pack` as a 16-bit signed (`h`) or unsigned (`H`) value; the
pack raises (here: `none`) when the integer is out of the 16-bit range. -/
def numToTwoByteArray (value : ℚ) (numberOfDecimals : Nat)
    (lsbFirst signed : Bool) : Option (List Nat) :=
  let integer : ℤ := ratTrunc (value * 10 ^ numberOfDecimals)
  if signed then
    if -32768 ≤ integer ∧ integer ≤ 32767 then
      some (packUInt16 lsbFirst (integer % 65536).toNat)
    else none
  else
    if 0 ≤ integer ∧ integer ≤ 65535 then
      some (packUInt16 lsbFirst integer.toNat)
    else none

/-- `_twoByteStringToNum(bytearray, numberOfDecimals, signed)`: requires a
2-byte input, unpacks it big-endian (signed values by two's complement),
and divides by `10**numberOfDecimals` when `numberOfDecimals > 0`
(the source then returns a float; we model it exactly in `ℚ`). -/
def twoByteStringToNum (ba : List Nat) (numberOfDecimals : Nat)
    (signed : Bool) : Option ℚ :=
  if ba.length = 2 then
    let full : Nat := ba.getD 0 0 * 256 + ba.getD 1 0
    let fullregister : ℤ :=
      if signed then (if 32768 ≤ full then (full : ℤ) - 65536 else (full : ℤ))
      else (full : ℤ)
    if numberOfDecimals = 0 then some ((fullregister : ℚ))
    else some ((fullregister : ℚ) / (10 ^ numberOfDecimals : ℚ))
  else none

/-- The distinct exceptions of `_predictResponseSize`. -/
inductive PredictError where
  /-- `_checkMode` or `_checkFunctioncode` failed -/
  | argError : PredictError
  /-- `_checkString(payloadToSlave, minlength=4)` failed -/
  | payloadTooShort : PredictError
  /-- function code in 1..127 but not one of 1,2,3,4,5,6,15,16 -/
  | wrongFunctioncode : PredictError
  deriving DecidableEq, Repr

/-- `_predictResponseSize(mode, functioncode, payloadToSlave)`: argument
checks in source order (mode, function-code range, minimum payload length
4), then the per-function-code response payload size, plus 2 start bytes
and 2 CRC bytes.  For codes 1..4 the quantity is
`_twoByteStringToNum(payloadToSlave[2:4])`, i.e. bytes 2..3 big-endian. -/
def predictResponseSize (mode : String) (functioncode : Nat)
    (payloadToSlave : List Nat) : Except PredictError Nat :=
  if mode ≠ "rtu" then .error .argError
  else if ¬ (1 ≤ functioncode ∧ functioncode ≤ 127) then .error .argError
  else if payloadToSlave.length < 4 then .error .payloadTooShort
  else if functioncode = 5 ∨ functioncode = 6 ∨ functioncode = 15 ∨ functioncode = 16 then
    .ok (2 + 4 + 2)
  else if functioncode = 1 ∨ functioncode = 2 ∨ functioncode = 3 ∨ functioncode = 4 then
    let givenSize := payloadToSlave.getD 2 0 * 256 + payloadToSlave.getD 3 0
    if functioncode = 1 ∨ functioncode = 2 then
      .ok (2 + (1 + (givenSize / 8 + (if givenSize % 8 ≠ 0 then 1 else 0))) + 2)
    else
      .ok (2 + (1 + givenSize * 2) + 2)
  else .error .wrongFunctioncode

/-- `_calculate_minimum_silent_period(baudrate)`: rejects baudrates below 1
(`_checkNumerical(minvalue=1)`), otherwise
`1000 / baudrate * 11 * 3.5` milliseconds. -/
def calculateMinimumSilentPeriod (baudrate : ℚ) : Option ℚ :=
  if baudrate < 1 then none
  else some (1000 / baudrate * 11 * 3.5)

/-- Lookup in the `_LATEST_READ_TIMES` dictionary, modelled as an
association list (most recent entry first). -/
def lookupPort : List (String × ℚ) → String → Option ℚ
  | [], _ => none
  | (p, t) :: rest, port => if p = port then some t else lookupPort rest port

/-- Assignment `_LATEST_READ_TIMES[port] = t`. -/
def updatePort (state : List (String × ℚ)) (port : String) (t : ℚ) :
    List (String × ℚ) :=
  (port, t) :: state

/-- The sleep duration chosen by `Instrument._communicate` before writing:
`time_since_read = now - _LATEST_READ_TIMES.get(port, 0)`; sleep
`minimum_silent_period - time_since_read` when the gap is shorter than the
minimum, otherwise do not sleep (modelled as duration 0). -/
def communicateSleepTime (baudrate : ℚ) (latestReadTimes : List (String × ℚ))
    (port : String) (now : ℚ) : Option ℚ :=
  (calculateMinimumSilentPeriod baudrate).map fun msp =>
    let timeSinceRead := now - (lookupPort latestReadTimes port).getD 0
    if timeSinceRead < msp then msp - timeSinceRead else 0

/-- Failures of a transaction after the serial read. -/
inductive CommandError where
  /-- `IOError('No communication with the instrument (no answer)')` on a
  zero-length read -/
  | noAnswer : CommandError
  /-- a failure raised later by `_extractPayload` -/
  | protocolError : ExtractError → CommandError
  deriving DecidableEq, Repr

/-- The receive tail of `Instrument._communicate` (lines 416-436): after
`answer = self.serial.read(...)` the read timestamp for the port is
recorded unconditionally, and only then is a zero-length answer rejected
with the no-answer `IOError`. -/
def communicateReceive (latestReadTimes : List (String × ℚ)) (port : String)
    (readTime : ℚ) (answer : List Nat) :
    List (String × ℚ) × Except CommandError (List Nat) :=
  let state := updatePort latestReadTimes port readTime
  if answer.length = 0 then (state, .error .noAnswer) else (state, .ok answer)

/-- The receive side of `Instrument._performCommand`: the answer passes
through the `_communicate` tail and only a non-empty answer reaches
`_extractPayload`. -/
def performCommandReceive (latestReadTimes : List (String × ℚ)) (port : String)
    (readTime : ℚ) (answer : List Nat) (slaveaddress functioncode : Nat) :
    List (String × ℚ) × Except CommandError (List Nat) :=
  match communicateReceive latestReadTimes port readTime answer with
  | (st, .error e) => (st, .error e)
  | (st, .ok response) =>
    (st, (extractPayload response slaveaddress "rtu" functioncode).mapError .protocolError)

/-- The read-size computation of `Instrument._performCommand`: start from
the default 1000 bytes and, when `precalculate_read_size` is set, try
`_predictResponseSize`; any exception from it is swallowed and the default
kept. -/
def performCommandBytesToRead (precalculateReadSize : Bool) (mode : String)
    (functioncode : Nat) (payloadToSlave : List Nat) : Nat :=
  if precalculateReadSize then
    match predictResponseSize mode functioncode payloadToSlave with
    | .ok n => n
    | .error _ => 1000
  else 1000

/-- `_createBitpattern(functioncode, value)`: only function codes 5 and 15
are allowed (`_checkFunctioncode(functioncode, [5, 15])`) and `value` must
be 0 or 1 (`_checkInt(value, minvalue=0, maxvalue=1)`). -/
def createBitpattern (functioncode : Nat) (value : ℤ) : Option (List Nat) :=
  if ¬ ((functioncode = 5 ∨ functioncode = 15) ∧ 0 ≤ value ∧ value ≤ 1) then
    none
  else if functioncode = 5 then
    (if value = 0 then some [0x00, 0x00] else some [0xFF, 0x00])
  else
    (if value = 0 then some [0x00] else some [0x01])

/-- The request payload built by `_genericCommand` for function codes 3
and 4: `_numToTwoByteArray(registeraddress) ++
_numToTwoByteArray(numberOfRegisters)`. -/
def genericCommandPayloadFc34 (registeraddress numberOfRegisters : Nat) :
    Option (List Nat) :=
  (numToTwoByteArray (registeraddress : ℚ) 0 false false).bind fun ra =>
    (numToTwoByteArray (numberOfRegisters : ℚ) 0 false false).map fun nr => ra ++ nr

/-- The request payload built by `_genericCommand` for function code 5:
`_numToTwoByteArray(registeraddress) ++ _createBitpattern(5, value)`. -/
def genericCommandPayloadFc5 (registeraddress : Nat) (value : ℤ) :
    Option (List Nat) :=
  (numToTwoByteArray (registeraddress : ℚ) 0 false false).bind fun ra =>
    (createBitpattern 5 value).map fun bp => ra ++ bp

/-- `_checkResponseWriteData(payload, writedata)` succeeds (does not raise)
iff the payload is at least 4 bytes, the write data is exactly 2 bytes, and
`payload[2:4]` equals the write data. -/
def checkResponseWriteData (payload writedata : List Nat) : Bool :=
  decide (4 ≤ payload.length) && decide (writedata.length = 2) &&
    decide ((payload.drop 2).take 2 = writedata)

/-- The echoed-write-data check performed by `_genericCommand` for
function code 5: `_checkResponseWriteData(payloadFromSlave,
_createBitpattern(functioncode, value))`. -/
def genericCommandCheckWriteDataFc5 (payloadFromSlave : List Nat)
    (value : ℤ) : Bool :=
  match createBitpattern 5 value with
  | some bp => checkResponseWriteData payloadFromSlave bp
  | none => false

/-- The full request frame assembled by `Instrument.read_registers`:
the function-code 3/4 payload embedded with the instrument's slave
address. -/
def readRegistersRequest (slaveaddress registeraddress numberOfRegisters
    functioncode : Nat) : Option (List Nat) :=
  (genericCommandPayloadFc34 registeraddress numberOfRegisters).bind fun payload =>
    embedPayload slaveaddress "rtu" functioncode payload

/-- The 16-bit range accepted by `struct.pack` in `_numToTwoByteArray`:
format `h` (signed) or `H` (unsigned). -/
def fitsInt16 (signed : Bool) (i : ℤ) : Prop :=
  if signed then -32768 ≤ i ∧ i ≤ 32767 else 0 ≤ i ∧ i ≤ 65535

instance (signed : Bool) (i : ℤ) : Decidable (fitsInt16 signed i) := by
  unfold fitsInt16
  infer_instance

/-! ## Helper lemmas -/

/-- The serialized CRC always consists of exactly two bytes. -/
theorem calculateCrcString_length (l : List Nat) :
    (calculateCrcString l).length = 2 := by
  simp [calculateCrcString, packUInt16]

/-- A function code of at most 127 never equals itself with bit 7 set. -/
theorem ne_setBitOn_of_le (fc : Nat) (h : fc ≤ 127) : fc ≠ setBitOn fc 7 := by
  have hset : setBitOn fc 7 = fc ||| 128 := rfl
  intro hEq
  have h1 : Nat.testBit fc 7 = false := Nat.testBit_lt_two_pow (by omega)
  have h2 : Nat.testBit (fc ||| 128) 7 = true := by
    rw [Nat.testBit_or, h1]
    decide
  rw [← hset, ← hEq, h1] at h2
  exact Bool.noConfusion h2

/-- Truncation toward zero is the identity on integers. -/
theorem ratTrunc_intCast (i : ℤ) : ratTrunc ((i : ℚ)) = i := by
  simp [ratTrunc, Rat.num_intCast, Rat.den_intCast, Int.tdiv_one]

/-- Evaluation of the unsigned, big-endian, zero-decimals register encode
on a natural number in range. -/
theorem numToTwoByteArray_natCast (n : Nat) (h : n ≤ 65535) :
    numToTwoByteArray (n : ℚ) 0 false false = some [n / 256 % 256, n % 256] := by
  have h0 : ((n : ℚ) * 10 ^ 0) = ((n : ℤ) : ℚ) := by push_cast; ring
  rw [numToTwoByteArray]
  simp only [h0, ratTrunc_intCast, Bool.false_eq_true, if_false]
  rw [if_pos ⟨by positivity, by exact_mod_cast h⟩]
  simp [packUInt16]

/-! ## Claims -/

/-- C1: for every slave address in [0, 247], every function code in
[1, 127] and every payload byte sequence, extracting the payload from the
frame built over the same address and function code returns the original
payload unchanged. -/
theorem extract_embedPayload_roundtrip (addr fc : Nat) (p : List Nat)
    (h1 : addr ≤ 247) (h2 : 1 ≤ fc) (h3 : fc ≤ 127) :
    ∃ frame, embedPayload addr "rtu" fc p = some frame ∧
      extractPayload frame addr "rtu" fc = Except.ok p := by
  have hguard : addr ≤ 247 ∧ "rtu" = "rtu" ∧ 1 ≤ fc ∧ fc ≤ 127 := ⟨h1, rfl, h2, h3⟩
  refine ⟨(addr :: fc :: p) ++ calculateCrcString (addr :: fc :: p), ?_, ?_⟩
  · rw [embedPayload, if_pos hguard]
  · have hlen2 : (calculateCrcString (addr :: fc :: p)).length = 2 :=
      calculateCrcString_length _
    have hF : ((addr :: fc :: p) ++ calculateCrcString (addr :: fc :: p)).length
        = (addr :: fc :: p).length + 2 := by
      rw [List.length_append, hlen2]
    have hsub : ((addr :: fc :: p) ++ calculateCrcString (addr :: fc :: p)).length - 2
        = (addr :: fc :: p).length := by omega
    have hget0 : ((addr :: fc :: p) ++ calculateCrcString (addr :: fc :: p)).getD 0 0
        = addr := rfl
    have hget1 : ((addr :: fc :: p) ++ calculateCrcString (addr :: fc :: p)).getD 1 0
        = fc := rfl
    rw [extractPayload, if_neg (by simp [hguard]),
      if_neg (by rw [hF]; simp), hsub, List.take_left, List.drop_left,
      if_neg (by simp), hget0, if_neg (by simp), hget1,
      if_neg (ne_setBitOn_of_le fc h3), if_neg (by simp)]
    rfl

/-- C1 witness: a concrete round trip at address 1, function code 3,
payload `[0, 0, 0, 1]`. -/
theorem extract_embedPayload_roundtrip_witness :
    ∃ frame, embedPayload 1 "rtu" 3 [0, 0, 0, 1] = some frame ∧
      extractPayload frame 1 "rtu" 3 = Except.ok [0, 0, 0, 1] :=
  extract_embedPayload_roundtrip 1 3 [0, 0, 0, 1]
    (by norm_num) (by norm_num) (by norm_num)

set_option maxRecDepth 100000 in
/-- C2: the CRC16 engine starts its register at 0xFFFF, updates it per
input byte as `register = (register >> 8) XOR table[(register XOR byte) &
0xFF]` over the 256-entry table and serializes it low byte first; the CRC
of `01 03 00 00 00 01` is `84 0A`, so the built request frame for slave
address 1, function code 3, register address 0x0000, count 1 is exactly
`01 03 00 00 00 01 84 0A`. -/
theorem crc_engine_spec :
    crcRegister [] = 0xFFFF ∧
    crc16Table.length = 256 ∧
    (∀ (l : List Nat) (b : Nat), crcRegister (l ++ [b]) =
      (crcRegister l >>> 8) ^^^ crc16Table.getD ((crcRegister l ^^^ b) &&& 0xFF) 0) ∧
    (∀ l : List Nat, calculateCrcString l =
      [crcRegister l % 256, crcRegister l / 256 % 256]) ∧
    calculateCrcString [0x01, 0x03, 0x00, 0x00, 0x00, 0x01] = [0x84, 0x0A] ∧
    readRegistersRequest 1 0 1 3 =
      some [0x01, 0x03, 0x00, 0x00, 0x00, 0x01, 0x84, 0x0A] := by
  have hpay : genericCommandPayloadFc34 0 1 = some [0, 0, 0, 1] := by
    rw [genericCommandPayloadFc34, numToTwoByteArray_natCast 0 (by norm_num),
        numToTwoByteArray_natCast 1 (by norm_num)]
    rfl
  refine ⟨rfl, rfl, ?_, ?_, rfl, ?_⟩
  · intro l b
    simp [crcRegister, crcStep, List.foldl_append]
  · intro l
    simp [calculateCrcString, packUInt16]
  · rw [readRegistersRequest, hpay]
    rfl

/-- C3: `_extractPayload` validates an inbound response in a fixed
sequence with distinct failure modes: length below 4 bytes is a framing
error; then the CRC16 recomputed over all bytes except the trailing two
must equal those trailing bytes; then the first byte must equal the
expected slave address; then the second byte must equal the requested
function code, failure with bit 7 set being a slave-reported exception
(even though checksum and address checks passed) and any other value a
function-code mismatch; on success the payload is exactly the bytes
strictly between the 2-byte header and the 2 trailing CRC bytes. -/
theorem extractPayload_check_sequence :
    (∀ (response : List Nat) (addr fc : Nat),
      addr ≤ 247 → 1 ≤ fc → fc ≤ 127 →
      response.length < 4 →
      extractPayload response addr "rtu" fc = .error .tooShort) ∧
    (∀ (response : List Nat) (addr fc : Nat),
      addr ≤ 247 → 1 ≤ fc → fc ≤ 127 → 4 ≤ response.length →
      response.drop (response.length - 2) ≠
        calculateCrcString (response.take (response.length - 2)) →
      extractPayload response addr "rtu" fc = .error .checksumError) ∧
    (∀ (response : List Nat) (addr fc : Nat),
      addr ≤ 247 → 1 ≤ fc → fc ≤ 127 → 4 ≤ response.length →
      response.drop (response.length - 2) =
        calculateCrcString (response.take (response.length - 2)) →
      response.getD 0 0 ≠ addr →
      extractPayload response addr "rtu" fc = .error .wrongAddress) ∧
    (∀ (response : List Nat) (addr fc : Nat),
      addr ≤ 247 → 1 ≤ fc → fc ≤ 127 → 4 ≤ response.length →
      response.drop (response.length - 2) =
        calculateCrcString (response.take (response.length - 2)) →
      response.getD 0 0 = addr →
      response.getD 1 0 = setBitOn fc 7 →
      extractPayload response addr "rtu" fc = .error .slaveException) ∧
    (∀ (response : List Nat) (addr fc : Nat),
      addr ≤ 247 → 1 ≤ fc → fc ≤ 127 → 4 ≤ response.length →
      response.drop (response.length - 2) =
        calculateCrcString (response.take (response.length - 2)) →
      response.getD 0 0 = addr →
      response.getD 1 0 ≠ setBitOn fc 7 →
      response.getD 1 0 ≠ fc →
      extractPayload response addr "rtu" fc = .error .wrongFunctioncode) ∧
    (∀ (response : List Nat) (addr fc : Nat),
      addr ≤ 247 → 1 ≤ fc → fc ≤ 127 → 4 ≤ response.length →
      response.drop (response.length - 2) =
        calculateCrcString (response.take (response.length - 2)) →
      response.getD 0 0 = addr →
      response.getD 1 0 = fc →
      extractPayload response addr "rtu" fc =
        .ok ((response.take (response.length - 2)).drop 2)) := by
  refine ⟨?_, ?_, ?_, ?_, ?_, ?_⟩
  · intro response addr fc ha h2 h3 hlen
    rw [extractPayload, if_neg (by simp [ha, h2, h3]), if_pos hlen]
  · intro response addr fc ha h2 h3 hlen hcrc
    rw [extractPayload, if_neg (by simp [ha, h2, h3]), if_neg (by omega),
      if_pos hcrc]
  · intro response addr fc ha h2 h3 hlen hcrc haddr
    rw [extractPayload, if_neg (by simp [ha, h2, h3]), if_neg (by omega),
      if_neg (not_not_intro hcrc), if_pos haddr]
  · intro response addr fc ha h2 h3 hlen hcrc haddr hexc
    rw [extractPayload, if_neg (by simp [ha, h2, h3]), if_neg (by omega),
      if_neg (not_not_intro hcrc), if_neg (not_not_intro haddr), if_pos hexc]
  · intro response addr fc ha h2 h3 hlen hcrc haddr hnotexc hne
    rw [extractPayload, if_neg (by simp [ha, h2, h3]), if_neg (by omega),
      if_neg (not_not_intro hcrc), if_neg (not_not_intro haddr),
      if_neg hnotexc, if_pos hne]
  · intro response addr fc ha h2 h3 hlen hcrc haddr hfc
    rw [extractPayload, if_neg (by simp [ha, h2, h3]), if_neg (by omega),
      if_neg (not_not_intro hcrc), if_neg (not_not_intro haddr),
      if_neg (by rw [hfc]; exact ne_setBitOn_of_le fc h3),
      if_neg (not_not_intro hfc)]

set_option maxRecDepth 100000 in
/-- C3 witness: each failure mode and the success case hit at a concrete
response (built around the CRC values of the corresponding headers). -/
theorem extractPayload_check_sequence_witness :
    extractPayload [1, 3, 2] 1 "rtu" 3 = .error .tooShort ∧
    extractPayload [1, 3, 0, 0] 1 "rtu" 3 = .error .checksumError ∧
    extractPayload [2, 3, 64, 209] 1 "rtu" 3 = .error .wrongAddress ∧
    extractPayload [1, 131, 65, 129] 1 "rtu" 3 = .error .slaveException ∧
    extractPayload [1, 4, 1, 227] 1 "rtu" 3 = .error .wrongFunctioncode ∧
    extractPayload [1, 3, 0, 0, 0, 1, 132, 10] 1 "rtu" 3 =
      .ok (([1, 3, 0, 0, 0, 1, 132, 10].take 6).drop 2) :=
  ⟨extractPayload_check_sequence.1 [1, 3, 2] 1 3
      (by norm_num) (by norm_num) (by norm_num) (by norm_num),
   extractPayload_check_sequence.2.1 [1, 3, 0, 0] 1 3
      (by norm_num) (by norm_num) (by norm_num) (by norm_num) (by decide),
   extractPayload_check_sequence.2.2.1 [2, 3, 64, 209] 1 3
      (by norm_num) (by norm_num) (by norm_num) (by norm_num) (by decide)
      (by decide),
   extractPayload_check_sequence.2.2.2.1 [1, 131, 65, 129] 1 3
      (by norm_num) (by norm_num) (by norm_num) (by norm_num) (by decide)
      (by decide) (by decide),
   extractPayload_check_sequence.2.2.2.2.1 [1, 4, 1, 227] 1 3
      (by norm_num) (by norm_num) (by norm_num) (by norm_num) (by decide)
      (by decide) (by decide) (by decide),
   extractPayload_check_sequence.2.2.2.2.2 [1, 3, 0, 0, 0, 1, 132, 10] 1 3
      (by norm_num) (by norm_num) (by norm_num) (by norm_num) (by decide)
      (by decide) (by decide)⟩

/-- C4: `_predictResponseSize` returns 8 bytes total for the write
function codes 5, 6, 15 and 16; `2 + 1 + ceil(q/8) + 2` bytes for codes 1
and 2, where `q` is the big-endian quantity in bytes 2-3 of the outgoing
payload; `2 + 1 + 2*R + 2` bytes for codes 3 and 4 requesting `R`
registers; and rejects any other function code as a usage error. -/
theorem predictResponseSize_spec :
    (∀ (fc : Nat) (payload : List Nat),
      (fc = 5 ∨ fc = 6 ∨ fc = 15 ∨ fc = 16) → 4 ≤ payload.length →
      predictResponseSize "rtu" fc payload = .ok 8) ∧
    (∀ (fc q : Nat) (payload : List Nat),
      (fc = 1 ∨ fc = 2) → 4 ≤ payload.length →
      payload.getD 2 0 * 256 + payload.getD 3 0 = q →
      predictResponseSize "rtu" fc payload = .ok (2 + (1 + (q + 7) / 8) + 2)) ∧
    (∀ (fc R : Nat) (payload : List Nat),
      (fc = 3 ∨ fc = 4) → 4 ≤ payload.length →
      payload.getD 2 0 * 256 + payload.getD 3 0 = R →
      predictResponseSize "rtu" fc payload = .ok (2 + (1 + 2 * R) + 2)) ∧
    (∀ (fc : Nat) (payload : List Nat),
      1 ≤ fc → fc ≤ 127 → fc ∉ ([1, 2, 3, 4, 5, 6, 15, 16] : List Nat) →
      4 ≤ payload.length →
      predictResponseSize "rtu" fc payload = .error .wrongFunctioncode) := by
  refine ⟨?_, ?_, ?_, ?_⟩
  · intro fc payload hfc hlen
    have hnl : ¬ (payload.length < 4) := by omega
    rcases hfc with h | h | h | h <;> subst h <;>
      rw [predictResponseSize, if_neg (by simp), if_neg (by norm_num),
        if_neg hnl, if_pos (by norm_num)]
  · intro fc q payload hfc hlen hq
    have hnl : ¬ (payload.length < 4) := by omega
    rcases hfc with h | h <;> subst h <;>
      simp only [predictResponseSize] <;>
      rw [if_neg (by simp), if_neg (by norm_num), if_neg hnl,
        if_neg (by norm_num), if_pos (by norm_num), if_pos (by norm_num),
        hq] <;>
      congr 1 <;>
      by_cases h8 : q % 8 = 0 <;> simp [h8] <;> omega
  · intro fc R payload hfc hlen hq
    have hnl : ¬ (payload.length < 4) := by omega
    rcases hfc with h | h <;> subst h <;>
      simp only [predictResponseSize] <;>
      rw [if_neg (by simp), if_neg (by norm_num), if_neg hnl,
        if_neg (by norm_num), if_pos (by norm_num), if_neg (by norm_num),
        hq] <;>
      congr 1 <;> omega
  · intro fc payload h1 h2 hmem hlen
    have hnl : ¬ (payload.length < 4) := by omega
    simp only [List.mem_cons, List.not_mem_nil, or_false, not_or] at hmem
    obtain ⟨n1, n2, n3, n4, n5, n6, n15, n16⟩ := hmem
    rw [predictResponseSize, if_neg (by simp), if_neg (by simp [h1, h2]),
      if_neg hnl, if_neg (by tauto), if_neg (by tauto)]

/-- C4 witness: one concrete prediction per arm (write echo, bit read,
register read, unsupported code 7). -/
theorem predictResponseSize_spec_witness :
    predictResponseSize "rtu" 5 [0, 0, 0, 0] = .ok 8 ∧
    predictResponseSize "rtu" 1 [0, 0, 0, 9] = .ok (2 + (1 + (9 + 7) / 8) + 2) ∧
    predictResponseSize "rtu" 3 [0, 0, 0, 3] = .ok (2 + (1 + 2 * 3) + 2) ∧
    predictResponseSize "rtu" 7 [0, 0, 0, 0] = .error .wrongFunctioncode :=
  ⟨predictResponseSize_spec.1 5 [0, 0, 0, 0] (by norm_num) (by norm_num),
   predictResponseSize_spec.2.1 1 9 [0, 0, 0, 9]
     (by norm_num) (by norm_num) (by decide),
   predictResponseSize_spec.2.2.1 3 3 [0, 0, 0, 3]
     (by norm_num) (by norm_num) (by decide),
   predictResponseSize_spec.2.2.2 7 [0, 0, 0, 0]
     (by norm_num) (by norm_num) (by decide) (by norm_num)⟩

/-- C5: register encode computes
`integer = round_toward_zero(value * 10^decimals)` and packs it as a
signed or unsigned 16-bit big-endian word, failing with a range error
exactly when the scaled integer does not fit; for every 16-bit value
representable after scaling and every decimals in [0, 10], decoding the
encoding returns the value (rationals model the decimal scaling exactly),
and decode returns an exact integer when decimals = 0. -/
theorem register_codec_spec :
    (∀ (v : ℚ) (d : Nat) (s : Bool),
      numToTwoByteArray v d false s = none ↔
        ¬ fitsInt16 s (ratTrunc (v * 10 ^ d))) ∧
    (∀ (v : ℚ) (d : Nat) (s : Bool) (b : List Nat),
      numToTwoByteArray v d false s = some b →
      b.length = 2 ∧
        ((b.getD 0 0 * 256 + b.getD 1 0 : ℤ)) = ratTrunc (v * 10 ^ d) % 65536) ∧
    (∀ (i : ℤ) (d : Nat) (s : Bool), d ≤ 10 → fitsInt16 s i →
      ∃ b, numToTwoByteArray ((i : ℚ) / 10 ^ d) d false s = some b ∧
        twoByteStringToNum b d s = some ((i : ℚ) / 10 ^ d)) ∧
    (∀ (b : List Nat) (s : Bool) (q : ℚ),
      twoByteStringToNum b 0 s = some q → ∃ k : ℤ, q = (k : ℚ)) := by
  refine ⟨?_, ?_, ?_, ?_⟩
  · intro v d s
    cases s <;> simp [numToTwoByteArray, fitsInt16]
  · intro v d s b hb
    cases s <;> simp only [numToTwoByteArray, Bool.false_eq_true, if_false,
      if_true] at hb
    · by_cases hr : 0 ≤ ratTrunc (v * 10 ^ d) ∧ ratTrunc (v * 10 ^ d) ≤ 65535
      · rw [if_pos hr] at hb
        injection hb with hb
        subst hb
        refine ⟨by simp [packUInt16], ?_⟩
        simp only [packUInt16, Bool.false_eq_true, if_false,
          List.getD_cons_zero, List.getD_cons_succ]
        omega
      · rw [if_neg hr] at hb
        exact absurd hb (by simp)
    · by_cases hr : -32768 ≤ ratTrunc (v * 10 ^ d) ∧ ratTrunc (v * 10 ^ d) ≤ 32767
      · rw [if_pos hr] at hb
        injection hb with hb
        subst hb
        refine ⟨by simp [packUInt16], ?_⟩
        simp only [packUInt16, Bool.false_eq_true, if_false,
          List.getD_cons_zero, List.getD_cons_succ]
        omega
      · rw [if_neg hr] at hb
        exact absurd hb (by simp)
  · intro i d s hd hfit
    have h10 : ((10 : ℚ) ^ d) ≠ 0 := by positivity
    have hmul : ((i : ℚ) / 10 ^ d * 10 ^ d) = ((i : ℚ)) := div_mul_cancel₀ _ h10
    cases s
    · simp only [fitsInt16, Bool.false_eq_true, if_false] at hfit
      refine ⟨packUInt16 false i.toNat, ?_, ?_⟩
      · rw [numToTwoByteArray]
        simp only [hmul, ratTrunc_intCast, Bool.false_eq_true, if_false]
        rw [if_pos hfit]
      · have hfull : (packUInt16 false i.toNat).getD 0 0 * 256 +
            (packUInt16 false i.toNat).getD 1 0 = i.toNat := by
          simp only [packUInt16, Bool.false_eq_true, if_false,
            List.getD_cons_zero, List.getD_cons_succ]
          omega
        rw [twoByteStringToNum, if_pos (by simp [packUInt16]), hfull]
        have hi : ((i.toNat : ℤ)) = i := by omega
        simp only [Bool.false_eq_true, if_false]
        rw [hi]
        by_cases hd0 : d = 0
        · subst hd0
          simp
        · rw [if_neg hd0]
    · simp only [fitsInt16, if_true] at hfit
      refine ⟨packUInt16 false (i % 65536).toNat, ?_, ?_⟩
      · rw [numToTwoByteArray]
        simp only [hmul, ratTrunc_intCast, if_true]
        rw [if_pos hfit]
      · have hfull : (packUInt16 false (i % 65536).toNat).getD 0 0 * 256 +
            (packUInt16 false (i % 65536).toNat).getD 1 0 = (i % 65536).toNat := by
          simp only [packUInt16, Bool.false_eq_true, if_false,
            List.getD_cons_zero, List.getD_cons_succ]
          omega
        rw [twoByteStringToNum, if_pos (by simp [packUInt16]), hfull]
        have hi : (if 32768 ≤ (i % 65536).toNat then
            (((i % 65536).toNat : ℤ)) - 65536 else (((i % 65536).toNat : ℤ))) = i := by
          split <;> omega
        simp only [eq_self_iff_true, if_true]
        rw [hi]
        by_cases hd0 : d = 0
        · subst hd0
          simp
        · rw [if_neg hd0]
  · intro b s q h
    rw [twoByteStringToNum] at h
    by_cases hl : b.length = 2
    · rw [if_pos hl, if_pos rfl] at h
      injection h with h
      exact ⟨_, h.symm⟩
    · rw [if_neg hl] at h
      exact absurd h (by simp)

/-- C5 witness: the signed value -123 with 2 decimals (i.e. -1.23) encodes
and decodes back to itself. -/
theorem register_codec_spec_witness :
    ∃ b, numToTwoByteArray (((-123 : ℤ) : ℚ) / 10 ^ 2) 2 false true = some b ∧
      twoByteStringToNum b 2 true = some (((-123 : ℤ) : ℚ) / 10 ^ 2) :=
  register_codec_spec.2.2.1 (-123) 2 true (by norm_num) (by decide)

/-- C6: a zero-length read fails as a transport error ("no answer"),
raised before any frame validation, and is a distinct failure from the
framing error raised for a non-empty response shorter than 4 bytes. -/
theorem noAnswer_before_validation :
    (∀ (state : List (String × ℚ)) (port : String) (readTime : ℚ)
      (addr fc : Nat),
      (performCommandReceive state port readTime [] addr fc).2 =
        .error .noAnswer) ∧
    (∀ (state : List (String × ℚ)) (port : String) (readTime : ℚ)
      (answer : List Nat) (addr fc : Nat),
      addr ≤ 247 → 1 ≤ fc → fc ≤ 127 → answer ≠ [] → answer.length < 4 →
      (performCommandReceive state port readTime answer addr fc).2 =
        .error (.protocolError .tooShort)) ∧
    CommandError.noAnswer ≠ CommandError.protocolError .tooShort := by
  refine ⟨?_, ?_, by simp⟩
  · intro state port readTime addr fc
    rfl
  · intro state port readTime answer addr fc ha h2 h3 hne hlen
    have hlen0 : ¬ (answer.length = 0) := by simpa using hne
    simp only [performCommandReceive, communicateReceive, updatePort]
    rw [if_neg hlen0]
    have hx : extractPayload answer addr "rtu" fc = .error .tooShort := by
      rw [extractPayload, if_neg (by simp [ha, h2, h3]), if_pos hlen]
    simp [hx]
    rfl

/-- C6 witness: a one-byte answer (non-empty, shorter than 4 bytes) fails
as a framing error, not as the no-answer transport error. -/
theorem noAnswer_before_validation_witness :
    (performCommandReceive [] "COM1" 0 [1] 1 3).2 =
      .error (.protocolError .tooShort) :=
  noAnswer_before_validation.2.1 [] "COM1" 0 [1] 1 3
    (by norm_num) (by norm_num) (by norm_num) (by simp) (by simp)

/-- C7: for every baudrate at least 1 the minimum silent period is
`(1000/baudrate) * 11 * 3.5` milliseconds (about 4.0104 ms at 9600 baud),
and before writing the engine sleeps for exactly the difference between
this minimum and the elapsed time since the last recorded read on the
port when that elapsed time is shorter, and does not sleep at all when the
gap already meets the minimum. -/
theorem silent_period_spec :
    (∀ baudrate : ℚ, 1 ≤ baudrate →
      calculateMinimumSilentPeriod baudrate =
        some (1000 / baudrate * 11 * 3.5)) ∧
    calculateMinimumSilentPeriod 9600 = some (385 / 96) ∧
    ((4.0104 : ℚ) ≤ 385 / 96 ∧ (385 : ℚ) / 96 < 4.0105) ∧
    (∀ (baudrate : ℚ) (state : List (String × ℚ)) (port : String)
      (now msp : ℚ),
      calculateMinimumSilentPeriod baudrate = some msp →
      (now - (lookupPort state port).getD 0 < msp →
        communicateSleepTime baudrate state port now =
          some (msp - (now - (lookupPort state port).getD 0))) ∧
      (msp ≤ now - (lookupPort state port).getD 0 →
        communicateSleepTime baudrate state port now = some 0)) := by
  refine ⟨?_, ?_, by norm_num, ?_⟩
  · intro b hb
    rw [calculateMinimumSilentPeriod, if_neg (by linarith)]
  · rw [calculateMinimumSilentPeriod, if_neg (by norm_num)]
    norm_num
  · intro b state port now msp hmsp
    constructor
    · intro hlt
      rw [communicateSleepTime, hmsp]
      simp only [Option.map_some']
      rw [if_pos hlt]
    · intro hge
      rw [communicateSleepTime, hmsp]
      simp only [Option.map_some']
      rw [if_neg (not_lt.mpr hge)]

/-- C7 witness: the 9600-baud silent period via the general formula, and a
concrete sleep of the remaining difference when only 1 ms has elapsed. -/
theorem silent_period_spec_witness :
    calculateMinimumSilentPeriod 9600 = some (1000 / 9600 * 11 * 3.5) ∧
    communicateSleepTime 9600 [] "COM1" 1 =
      some (385 / 96 - (1 - (lookupPort [] "COM1").getD 0)) :=
  ⟨silent_period_spec.1 9600 (by norm_num),
   (silent_period_spec.2.2.2 9600 [] "COM1" 1 (385 / 96)
      (by rw [calculateMinimumSilentPeriod, if_neg (by norm_num)]; norm_num)).1
      (by norm_num [lookupPort])⟩

/-- C8: `_createBitpattern` accepts only the values 0 and 1 and only
function codes 5 and 15; code 5 maps 1 to `FF 00` and 0 to `00 00`, code
15 maps 1 to `01` and 0 to `00`; the encoding is used to build the
function-code-5 write request payload and to check the echoed write data
in its response. -/
theorem createBitpattern_spec :
    (∀ v : ℤ, v ≠ 0 → v ≠ 1 →
      createBitpattern 5 v = none ∧ createBitpattern 15 v = none) ∧
    (∀ (fc : Nat) (v : ℤ), fc ≠ 5 → fc ≠ 15 → createBitpattern fc v = none) ∧
    (createBitpattern 5 1 = some [0xFF, 0x00] ∧
     createBitpattern 5 0 = some [0x00, 0x00] ∧
     createBitpattern 15 1 = some [0x01] ∧
     createBitpattern 15 0 = some [0x00]) ∧
    (∀ (ra : Nat) (v : ℤ) (raBytes bp : List Nat),
      numToTwoByteArray (ra : ℚ) 0 false false = some raBytes →
      createBitpattern 5 v = some bp →
      genericCommandPayloadFc5 ra v = some (raBytes ++ bp)) ∧
    (∀ (resp : List Nat) (v : ℤ) (bp : List Nat),
      createBitpattern 5 v = some bp →
      (genericCommandCheckWriteDataFc5 resp v = true ↔
        4 ≤ resp.length ∧ (resp.drop 2).take 2 = bp)) := by
  refine ⟨?_, ?_, ⟨by decide, by decide, by decide, by decide⟩, ?_, ?_⟩
  · intro v h0 h1
    constructor <;>
      rw [createBitpattern,
        if_pos (by rintro ⟨-, hv0, hv1⟩; omega)]
  · intro fc v hf5 hf15
    rw [createBitpattern, if_pos (by rintro ⟨h | h, -⟩; exacts [hf5 h, hf15 h])]
  · intro ra v raBytes bp hra hbp
    simp [genericCommandPayloadFc5, hra, hbp]
  · intro resp v bp hbp
    have hbp' : bp = [0, 0] ∨ bp = [255, 0] := by
      rw [createBitpattern] at hbp
      by_cases hg : ¬ ((5 = 5 ∨ 5 = 15) ∧ 0 ≤ v ∧ v ≤ 1)
      · rw [if_pos hg] at hbp
        exact absurd hbp (by simp)
      · rw [if_neg hg, if_pos (by norm_num)] at hbp
        by_cases hv : v = 0
        · rw [if_pos hv] at hbp
          injection hbp with h
          exact Or.inl h.symm
        · rw [if_neg hv] at hbp
          injection hbp with h
          exact Or.inr h.symm
    have hlen : bp.length = 2 := by rcases hbp' with h | h <;> subst h <;> rfl
    simp [genericCommandCheckWriteDataFc5, hbp, checkResponseWriteData, hlen]

/-- C8 witness: rejection of the value 2 and of function code 6, the
concrete code-5 request payload for register address 0, and the echoed
write-data check on a matching response payload. -/
theorem createBitpattern_spec_witness :
    createBitpattern 5 2 = none ∧ createBitpattern 15 2 = none ∧
    createBitpattern 6 1 = none ∧
    genericCommandPayloadFc5 0 1 = some ([0, 0] ++ [255, 0]) ∧
    (genericCommandCheckWriteDataFc5 [0, 0, 255, 0] 1 = true ↔
      4 ≤ ([0, 0, 255, 0] : List Nat).length ∧
        (([0, 0, 255, 0] : List Nat).drop 2).take 2 = [255, 0]) :=
  ⟨(createBitpattern_spec.1 2 (by norm_num) (by norm_num)).1,
   (createBitpattern_spec.1 2 (by norm_num) (by norm_num)).2,
   createBitpattern_spec.2.1 6 1 (by norm_num) (by norm_num),
   createBitpattern_spec.2.2.2.1 0 1 [0, 0] [255, 0]
     (numToTwoByteArray_natCast 0 (by norm_num)) (by decide),
   createBitpattern_spec.2.2.2.2 [0, 0, 255, 0] 1 [255, 0] (by decide)⟩

/-- C9 counterexample: a transaction that fails with a zero-length read
does NOT leave the recorded timestamp unchanged — the read timestamp is
recorded before the empty answer is rejected, so the port entry moves from
0 to 100 even though the transaction fails. -/
theorem latestReadTimes_updated_on_failed_transaction :
    (performCommandReceive [("COM1", 0)] "COM1" 100 [] 1 3).2 =
      .error .noAnswer ∧
    lookupPort (performCommandReceive [("COM1", 0)] "COM1" 100 [] 1 3).1
      "COM1" = some 100 ∧
    lookupPort [("COM1", (0 : ℚ))] "COM1" = some 0 :=
  ⟨rfl, rfl, rfl⟩

/-- C9 (amended): the port timing state is a process-wide mapping from
port identifier to last-read timestamp, shared by every Instrument bound
to the same port: every completed serial read on a port — including a
zero-length read of a failing transaction — records its timestamp under
that port, entries for other ports are untouched, and a zero-length
answer then fails the transaction. -/
theorem latestReadTimes_spec :
    (∀ (state : List (String × ℚ)) (port : String) (t : ℚ)
      (answer : List Nat),
      lookupPort (communicateReceive state port t answer).1 port = some t) ∧
    (∀ (state : List (String × ℚ)) (port port' : String) (t : ℚ)
      (answer : List Nat), port' ≠ port →
      lookupPort (communicateReceive state port t answer).1 port' =
        lookupPort state port') ∧
    (∀ (state : List (String × ℚ)) (port : String) (t : ℚ)
      (answer : List Nat), answer.length = 0 →
      (communicateReceive state port t answer).2 = .error .noAnswer) := by
  refine ⟨?_, ?_, ?_⟩
  · intro state port t answer
    by_cases h : answer.length = 0 <;>
      simp [communicateReceive, updatePort, lookupPort, h]
  · intro state port port' t answer hne
    by_cases h : answer.length = 0 <;>
      simp [communicateReceive, updatePort, lookupPort, h, Ne.symm hne]
  · intro state port t answer h
    simp [communicateReceive, h]

/-- C9 witness: a read on one port leaves the entry of a different port
unchanged. -/
theorem latestReadTimes_spec_witness :
    lookupPort (communicateReceive [] "COM1" 5 [1]).1 "COM2" =
      lookupPort [] "COM2" :=
  latestReadTimes_spec.2.1 [] "COM1" "COM2" 5 [1] (by decide)

/-- C10: `_predictResponseSize` rejects every outgoing payload shorter
than 4 bytes regardless of the function code, and whenever the predictor
raises, `_performCommand` silently keeps the fixed default read size of
1000 bytes. -/
theorem predict_fallback_spec :
    (∀ (fc : Nat) (payload : List Nat), 1 ≤ fc → fc ≤ 127 →
      payload.length < 4 →
      predictResponseSize "rtu" fc payload = .error .payloadTooShort) ∧
    (∀ (mode : String) (fc : Nat) (payload : List Nat) (e : PredictError),
      predictResponseSize mode fc payload = .error e →
      performCommandBytesToRead true mode fc payload = 1000) := by
  constructor
  · intro fc payload h1 h2 hlen
    rw [predictResponseSize, if_neg (by simp), if_neg (by simp [h1, h2]),
      if_pos hlen]
  · intro mode fc payload e he
    simp [performCommandBytesToRead, he]

/-- C10 witness: a 3-byte payload is rejected even for write code 5, and
the orchestrator falls back to 1000 bytes for it. -/
theorem predict_fallback_spec_witness :
    predictResponseSize "rtu" 5 [0, 0, 0] = .error .payloadTooShort ∧
    performCommandBytesToRead true "rtu" 5 [0, 0, 0] = 1000 :=
  ⟨predict_fallback_spec.1 5 [0, 0, 0] (by norm_num) (by norm_num)
     (by norm_num),
   predict_fallback_spec.2 "rtu" 5 [0, 0, 0] .payloadTooShort
     (predict_fallback_spec.1 5 [0, 0, 0] (by norm_num) (by norm_num)
       (by norm_num))⟩

end MinimalModbus
